import Mathlib

/-!
Verification of the buttplug-py client core: a shallow embedding of the
message codec (versions v0-v3), the id allocator, the case-conversion
utilities, and the client/device model, with theorems checking the
natural-language specification against the code.
-/

namespace Buttplug

/-! ## utils/cases.py -/

/-- The acronym list of utils/cases.py: words upper-cased instead of
capitalized by pascal_case. -/
def acronyms : List String := ["rssi", "fw12"]

/-- Splitting a character list at every occurrence of a separator, keeping
empty chunks, as Python str.split with an explicit separator does. -/
def splitOnChar (sep : Char) : List Char → List (List Char)
  | [] => [[]]
  | c :: cs =>
    match splitOnChar sep cs with
    | [] => [[]]
    | w :: ws => if c = sep then [] :: w :: ws else (c :: w) :: ws

/-- Python str.capitalize restricted to ASCII input: first character
upper-cased, the rest lower-cased. -/
def pyCapitalize : List Char → List Char
  | [] => []
  | c :: cs => c.toUpper :: cs.map Char.toLower

/-- pascal_case of utils/cases.py: split on underscores, capitalize each
chunk unless it is an acronym, which is upper-cased, and concatenate. -/
def pascal_case (s : String) : String :=
  ⟨((splitOnChar '_' s.data).map (fun x =>
      if acronyms.contains (⟨x⟩ : String) then x.map Char.toUpper
      else pyCapitalize x)).flatten⟩

/-- First regex pass of snake_case: re.sub with pattern of one or more
upper-case letters and a space prefixed to the match, i.e. a space is
inserted before every maximal run of upper-case letters.  The boolean
argument records whether the previous character was upper-case. -/
def subUpperRuns : Bool → List Char → List Char
  | _, [] => []
  | prevUp, c :: cs =>
    if c.isUpper && !prevUp then ' ' :: c :: subUpperRuns true cs
    else c :: subUpperRuns c.isUpper cs

/-- Second regex pass of snake_case: re.sub with pattern of an upper-case
letter followed by one or more lower-case letters, a space prefixed to the
match, i.e. a space is inserted before every upper-case letter that is
immediately followed by a lower-case letter. -/
def subUpperLower : List Char → List Char
  | [] => []
  | [c] => [c]
  | c :: d :: cs =>
    if c.isUpper && d.isLower then ' ' :: c :: subUpperLower (d :: cs)
    else c :: subUpperLower (d :: cs)

/-- snake_case of utils/cases.py: apply the two regex passes, split on
whitespace discarding empty chunks (Python str.split with no argument),
lower-case each chunk and join with underscores. -/
def snake_case (s : String) : String :=
  ⟨List.intercalate ['_']
    (((splitOnChar ' ' (subUpperLower (subUpperRuns false s.data))).filter
      (fun w => w ≠ [])).map (fun w => w.map Char.toLower))⟩

/-- Every wire (PascalCase) field name appearing in a registered message
dataclass of messages/v0.py-v3.py, including nested Field records. -/
def wireFieldNames : List String :=
  ["Id", "ErrorMessage", "ErrorCode", "ClientName", "ServerName",
   "MajorVersion", "MinorVersion", "BuildVersion", "MessageVersion",
   "MaxPingTime", "DeviceName", "DeviceIndex", "DeviceMessages",
   "DeviceMessageTimingGap", "DeviceDisplayName", "Devices",
   "FeatureCount", "StepCount", "FeatureDescriptor", "ActuatorType",
   "SensorType", "SensorRange", "Endpoint", "Speed", "Speeds", "Index",
   "Duration", "Position", "Vectors", "Rotations", "Clockwise", "Command",
   "BatteryLevel", "RSSILevel", "Data", "WriteWithResponse",
   "ExpectedLength", "WaitForData", "Scalars", "Scalar", "SensorIndex"]

/-- Every internal (snake_case) field name of the same dataclasses. -/
def snakeFieldNames : List String :=
  ["id", "error_message", "error_code", "client_name", "server_name",
   "major_version", "minor_version", "build_version", "message_version",
   "max_ping_time", "device_name", "device_index", "device_messages",
   "device_message_timing_gap", "device_display_name", "devices",
   "feature_count", "step_count", "feature_descriptor", "actuator_type",
   "sensor_type", "sensor_range", "endpoint", "speed", "speeds", "index",
   "duration", "position", "vectors", "rotations", "clockwise", "command",
   "battery_level", "rssi_level", "data", "write_with_response",
   "expected_length", "wait_for_data", "scalars", "scalar", "sensor_index"]

/-! ## messages/machinery.py: AutoIncrementId -/

/-- AutoIncrementId of messages/machinery.py: a callable generator of ids in
the inclusive range from lower_bound to upper_bound.  The pointer starts as
None (modelled by Option.none). -/
structure AutoIncrementId where
  pointer : Option Nat := none
  lower_bound : Nat := 1
  upper_bound : Nat := 4294967295
  deriving DecidableEq, Repr

/-- One call of AutoIncrementId: if the pointer is None or equals the upper
bound it is reset to the lower bound, otherwise incremented; the new pointer
value is returned. -/
def AutoIncrementId.call (g : AutoIncrementId) : Nat × AutoIncrementId :=
  match g.pointer with
  | none => (g.lower_bound, { g with pointer := some g.lower_bound })
  | some p =>
    if p = g.upper_bound then (g.lower_bound, { g with pointer := some g.lower_bound })
    else (p + 1, { g with pointer := some (p + 1) })

/-- The module-level generator message_id_generator = AutoIncrementId(),
built with the default bounds. -/
def message_id_generator : AutoIncrementId := {}

/-- States of the default-bounds generator reachable by repeated calls. -/
inductive AutoIncrementId.Reachable : AutoIncrementId → Prop
  | init : AutoIncrementId.Reachable message_id_generator
  | step {g : AutoIncrementId} : AutoIncrementId.Reachable g →
      AutoIncrementId.Reachable g.call.2

/-- Invariant of reachable generator states: default bounds, and the pointer
is either unset or within the id range. -/
def AutoIncrementId.Inv (g : AutoIncrementId) : Prop :=
  g.lower_bound = 1 ∧ g.upper_bound = 4294967295 ∧
    (g.pointer = none ∨ ∃ p, g.pointer = some p ∧ 1 ≤ p ∧ p ≤ 4294967295)

theorem AutoIncrementId.inv_init : AutoIncrementId.Inv message_id_generator :=
  ⟨rfl, rfl, Or.inl rfl⟩

theorem AutoIncrementId.inv_step {g : AutoIncrementId} (h : g.Inv) :
    g.call.2.Inv := by
  obtain ⟨hlb, hub, hp⟩ := h
  rcases hp with hnone | ⟨p, hsome, hp1, hp2⟩
  · simp [AutoIncrementId.call, hnone, AutoIncrementId.Inv, hlb, hub]
  · by_cases hmax : p = g.upper_bound
    · simp [AutoIncrementId.call, hsome, hmax, AutoIncrementId.Inv, hlb, hub]
    · have hcall : g.call.2 = { g with pointer := some (p + 1) } := by
        simp [AutoIncrementId.call, hsome, hmax]
      rw [hcall]
      refine ⟨hlb, hub, Or.inr ⟨p + 1, rfl, by omega, ?_⟩⟩
      rw [hub] at hmax
      omega

theorem AutoIncrementId.inv_of_reachable {g : AutoIncrementId}
    (h : g.Reachable) : g.Inv := by
  induction h with
  | init => exact AutoIncrementId.inv_init
  | step _ ih => exact AutoIncrementId.inv_step ih

/-! ## JSON values and the message catalog -/

/-- JSON values as handled by the codec.  Numbers are modelled as rationals
(JSON ints are rationals with denominator 1). -/
inductive JValue where
  | jnull
  | jbool (b : Bool)
  | jnum (q : ℚ)
  | jstr (s : String)
  | jarr (elems : List JValue)
  | jobj (fields : List (String × JValue))

/-- A JSON object payload: an ordered association list of keys to values. -/
abbrev JObj := List (String × JValue)

/-- apply_to_keys of utils/dict.py with snake_case, as used by
Incoming.from_json and FieldMeta. -/
def snakeKeys (d : JObj) : JObj := d.map (fun kv => (snake_case kv.1, kv.2))

/-- ProtocolSpec of messages/machinery.py: the four protocol revisions. -/
inductive ProtocolSpec where
  | v0
  | v1
  | v2
  | v3
  deriving DecidableEq, Repr, Fintype

/-- The integer value of each ProtocolSpec member. -/
def ProtocolSpec.toNat : ProtocolSpec → Nat
  | .v0 => 0
  | .v1 => 1
  | .v2 => 2
  | .v3 => 3

/-- The v0 message-name set of messages/v0.py. -/
def messagesV0 : List String :=
  ["Ok", "Error", "Ping", "RequestServerInfo", "ServerInfo", "StartScanning",
   "StopScanning", "ScanningFinished", "RequestDeviceList", "DeviceList",
   "DeviceAdded", "DeviceRemoved", "StopDeviceCmd", "StopAllDevices",
   "SingleMotorVibrateCmd", "KiirooCmd", "FleshlightLaunchFW12Cmd",
   "LovenseCmd", "VorzeA10CycloneCmd"]

/-- Names added to the set in messages/v1.py. -/
def addedV1 : List String :=
  ["RequestServerInfo", "ServerInfo", "DeviceList", "DeviceAdded",
   "VibrateCmd", "LinearCmd", "RotateCmd"]

/-- Names removed from the set in messages/v1.py. -/
def removedV1 : List String :=
  ["SingleMotorVibrateCmd", "KiirooCmd", "FleshlightLaunchFW12Cmd",
   "LovenseCmd", "VorzeA10CycloneCmd"]

/-- Names added to the set in messages/v2.py (none are removed). -/
def addedV2 : List String :=
  ["DeviceList", "DeviceAdded", "BatteryLevelCmd", "BatteryLevelReading",
   "RSSILevelCmd", "RSSILevelReading", "RawWriteCmd", "RawReadCmd",
   "RawReading", "RawSubscribeCmd", "RawUnsubscribeCmd"]

/-- Names added to the set in messages/v3.py. -/
def addedV3 : List String :=
  ["DeviceList", "DeviceAdded", "ScalarCmd", "SensorReadCmd",
   "SensorReading", "SensorSubscribeCmd", "SensorUnsubscribeCmd"]

/-- Names removed from the set in messages/v3.py. -/
def removedV3 : List String :=
  ["VibrateCmd", "BatteryLevelCmd", "BatteryLevelReading", "RSSILevelCmd",
   "RSSILevelReading"]

/-- Membership in the v0 message-name set. -/
def memV0 (n : String) : Bool := messagesV0.contains n

/-- Membership in the v1 set: v0 plus additions minus removals. -/
def memV1 (n : String) : Bool :=
  (memV0 n || addedV1.contains n) && !removedV1.contains n

/-- Membership in the v2 set: v1 plus additions. -/
def memV2 (n : String) : Bool := memV1 n || addedV2.contains n

/-- Membership in the v3 set: v2 plus additions minus removals. -/
def memV3 (n : String) : Bool :=
  (memV2 n || addedV3.contains n) && !removedV3.contains n

/-- Membership in the per-version message-name set Incoming._messages[v],
following the set unions and differences of messages/v0.py-v3.py. -/
def messagesMem : ProtocolSpec → String → Bool
  | .v0, n => memV0 n
  | .v1, n => memV1 n
  | .v2, n => memV2 n
  | .v3, n => memV3 n

/-- The class names registered in Incoming._registry[v]: exactly the
Incoming subclasses defined while Incoming._v was v.  Outgoing subclasses
never register (Incoming.__init_subclass__ only fires for Incoming
subclasses). -/
def registryNames : ProtocolSpec → List String
  | .v0 => ["Ok", "Error", "ServerInfo", "ScanningFinished", "DeviceList",
            "DeviceAdded", "DeviceRemoved"]
  | .v1 => ["DeviceList", "DeviceAdded"]
  | .v2 => ["ServerInfo", "DeviceList", "DeviceAdded", "BatteryLevelReading",
            "RSSILevelReading", "RawReading"]
  | .v3 => ["DeviceList", "DeviceAdded", "SensorReading"]

/-- Whether the given name is registered at the given version. -/
def registryHas (v : ProtocolSpec) (name : String) : Bool :=
  (registryNames v).contains name

/-! ## Incoming message variants -/

/-- ErrorCode of errors/server.py. -/
inductive ErrorCode where
  | error_unknown
  | error_init
  | error_ping
  | error_msg
  | error_device
  deriving DecidableEq, Repr

/-- ErrorCode(value): the IntEnum constructor, raising on any integer
outside 0-4. -/
def ErrorCode.ofInt : Int → Option ErrorCode
  | 0 => some .error_unknown
  | 1 => some .error_init
  | 2 => some .error_ping
  | 3 => some .error_msg
  | 4 => some .error_device
  | _ => none

/-- ProtocolSpec(value): the IntEnum constructor, raising outside 0-3. -/
def ProtocolSpec.ofInt : Int → Option ProtocolSpec
  | 0 => some .v0
  | 1 => some .v1
  | 2 => some .v2
  | 3 => some .v3
  | _ => none

/-- Device of messages/v0.py. -/
structure DeviceV0 where
  device_name : String
  device_index : Int
  device_messages : List String
  deriving DecidableEq, Repr

/-- DeviceMessageAttributes of messages/v1.py. -/
structure DeviceMessageAttributesV1 where
  feature_count : Option Int := none
  deriving DecidableEq, Repr

/-- Device of messages/v1.py (device_messages is an ordered dict). -/
structure DeviceV1 where
  device_name : String
  device_index : Int
  device_messages : List (String × DeviceMessageAttributesV1)
  deriving DecidableEq, Repr

/-- DeviceMessageAttributes of messages/v2.py. -/
structure DeviceMessageAttributesV2 where
  feature_count : Option Int := none
  step_count : Option (List Int) := none
  deriving DecidableEq, Repr

/-- Device of messages/v2.py. -/
structure DeviceV2 where
  device_name : String
  device_index : Int
  device_messages : List (String × DeviceMessageAttributesV2)
  deriving DecidableEq, Repr

/-- DeviceMessageAttributes of messages/v3.py. -/
structure DeviceMessageAttributesV3 where
  feature_descriptor : Option String := none
  step_count : Option Int := none
  actuator_type : Option String := none
  sensor_type : Option String := none
  sensor_range : Option (List (Int × Int)) := none
  endpoint : Option (List String) := none
  deriving DecidableEq, Repr

/-- Device of messages/v3.py: each capability maps to a list of
attribute records. -/
structure DeviceV3 where
  device_name : String
  device_index : Int
  device_messages : List (String × List DeviceMessageAttributesV3)
  device_message_timing_gap : Option Int := none
  device_display_name : Option String := none
  deriving DecidableEq, Repr

/-- The Incoming message classes of messages/v0.py-v3.py, each constructor
one registered class, named by class and defining version. -/
inductive Incoming where
  | okV0 (id : Int)
  | errorV0 (id : Int) (error_message : String) (error_code : ErrorCode)
  | serverInfoV0 (id : Int) (server_name : String)
      (major_version minor_version build_version : Int)
      (message_version : ProtocolSpec) (max_ping_time : Int)
  | scanningFinishedV0 (id : Int)
  | deviceListV0 (id : Int) (devices : List DeviceV0)
  | deviceAddedV0 (id : Int) (device_name : String) (device_index : Int)
      (device_messages : List String)
  | deviceRemovedV0 (id : Int) (device_index : Int)
  | deviceListV1 (id : Int) (devices : List DeviceV1)
  | deviceAddedV1 (id : Int) (device_name : String) (device_index : Int)
      (device_messages : List (String × DeviceMessageAttributesV1))
  | serverInfoV2 (id : Int) (server_name : String)
      (message_version : ProtocolSpec) (max_ping_time : Int)
  | deviceListV2 (id : Int) (devices : List DeviceV2)
  | deviceAddedV2 (id : Int) (device_name : String) (device_index : Int)
      (device_messages : List (String × DeviceMessageAttributesV2))
  | batteryLevelReadingV2 (id : Int) (device_index : Int) (battery_level : ℚ)
  | rssiLevelReadingV2 (id : Int) (device_index : Int) (rssi_level : Int)
  | rawReadingV2 (id : Int) (device_index : Int) (endpoint : String)
      (data : List Int)
  | deviceListV3 (id : Int) (devices : List DeviceV3)
  | deviceAddedV3 (id : Int) (device_name : String) (device_index : Int)
      (device_messages : List (String × List DeviceMessageAttributesV3))
      (device_message_timing_gap : Option Int)
      (device_display_name : Option String)
  | sensorReadingV3 (id : Int) (device_index : Int) (sensor_index : Int)
      (sensor_type : String) (data : List Int)
  deriving DecidableEq, Repr

/-- The id field every Incoming message carries. -/
def Incoming.id : Incoming → Int
  | .okV0 i | .errorV0 i _ _ | .serverInfoV0 i _ _ _ _ _ _
  | .scanningFinishedV0 i | .deviceListV0 i _ | .deviceAddedV0 i _ _ _
  | .deviceRemovedV0 i _ | .deviceListV1 i _ | .deviceAddedV1 i _ _ _
  | .serverInfoV2 i _ _ _ | .deviceListV2 i _ | .deviceAddedV2 i _ _ _
  | .batteryLevelReadingV2 i _ _ | .rssiLevelReadingV2 i _ _
  | .rawReadingV2 i _ _ _ | .deviceListV3 i _ | .deviceAddedV3 i _ _ _ _ _
  | .sensorReadingV3 i _ _ _ _ => i

/-! ## Decoding: payload parsers

Each parser embeds the Python call cls(**data): it fails (TypeError) when a
required field is missing, an unknown key is present, or a value cannot be
converted by the class's __post_init__. -/

/-- Decode failures: the explicit unsupported-message TypeError raised by
Incoming.from_json, and any other TypeError raised while constructing a
variant from keyword arguments. -/
inductive DecodeError where
  | unsupportedMessage
  | badPayload
  deriving DecidableEq, Repr

/-- First value bound to a key in a JSON object. -/
def jlookup (d : JObj) (k : String) : Option JValue :=
  (d.find? (fun kv => kv.1 = k)).map Prod.snd

/-- The keys of a JSON object. -/
def jkeys (d : JObj) : List String := d.map Prod.fst

/-- Keyword-argument check of cls(**data): every required dataclass field is
present and every key is a known (required or defaulted) field. -/
def keysLegal (d : JObj) (required optional : List String) : Bool :=
  required.all (fun k => (jkeys d).contains k) &&
    (jkeys d).all (fun k => required.contains k || optional.contains k)

/-- Option to Except conversion for parser plumbing. -/
def req {α : Type} (o : Option α) : Except DecodeError α :=
  match o with
  | some a => .ok a
  | none => .error .badPayload

/-- Keyword-argument check as an Except action. -/
def guardKeys (d : JObj) (required optional : List String) :
    Except DecodeError Unit :=
  if keysLegal d required optional then .ok () else .error .badPayload

/-- An integer-valued field (a JSON number with denominator 1). -/
def getInt (d : JObj) (k : String) : Option Int :=
  match jlookup d k with
  | some (.jnum q) => if q.den = 1 then some q.num else none
  | _ => none

/-- A number-valued field. -/
def getNum (d : JObj) (k : String) : Option ℚ :=
  match jlookup d k with
  | some (.jnum q) => some q
  | _ => none

/-- A string-valued field. -/
def getStr (d : JObj) (k : String) : Option String :=
  match jlookup d k with
  | some (.jstr s) => some s
  | _ => none

/-- A list-of-integers field. -/
def getIntList (d : JObj) (k : String) : Option (List Int) :=
  match jlookup d k with
  | some (.jarr xs) =>
    xs.mapM (fun x => match x with
      | .jnum q => if q.den = 1 then some q.num else none
      | _ => none)
  | _ => none

/-- A list-of-strings field. -/
def getStrList (d : JObj) (k : String) : Option (List String) :=
  match jlookup d k with
  | some (.jarr xs) =>
    xs.mapM (fun x => match x with
      | .jstr s => some s
      | _ => none)
  | _ => none

/-- Ok of messages/v0.py. -/
def parseOk (d : JObj) : Except DecodeError Incoming := do
  guardKeys d ["id"] []
  let i ← req (getInt d "id")
  return .okV0 i

/-- Error of messages/v0.py; __post_init__ converts the code through
ErrorCode(value). -/
def parseError (d : JObj) : Except DecodeError Incoming := do
  guardKeys d ["id", "error_message", "error_code"] []
  let i ← req (getInt d "id")
  let msg ← req (getStr d "error_message")
  let codeInt ← req (getInt d "error_code")
  let code ← req (ErrorCode.ofInt codeInt)
  return .errorV0 i msg code

/-- ServerInfo of messages/v0.py; __post_init__ converts message_version
through ProtocolSpec(value). -/
def parseServerInfoV0 (d : JObj) : Except DecodeError Incoming := do
  guardKeys d ["id", "server_name", "major_version", "minor_version",
               "build_version", "message_version", "max_ping_time"] []
  let i ← req (getInt d "id")
  let sn ← req (getStr d "server_name")
  let ma ← req (getInt d "major_version")
  let mi ← req (getInt d "minor_version")
  let bu ← req (getInt d "build_version")
  let mvInt ← req (getInt d "message_version")
  let mv ← req (ProtocolSpec.ofInt mvInt)
  let mp ← req (getInt d "max_ping_time")
  return .serverInfoV0 i sn ma mi bu mv mp

/-- ScanningFinished of messages/v0.py. -/
def parseScanningFinished (d : JObj) : Except DecodeError Incoming := do
  guardKeys d ["id"] []
  let i ← req (getInt d "id")
  return .scanningFinishedV0 i

/-- Device of messages/v0.py built from a raw JSON object (FieldMeta
snake-cases the keyword arguments). -/
def parseDeviceV0 (v : JValue) : Except DecodeError DeviceV0 := do
  match v with
  | .jobj d0 =>
    let d := snakeKeys d0
    guardKeys d ["device_name", "device_index", "device_messages"] []
    let n ← req (getStr d "device_name")
    let i ← req (getInt d "device_index")
    let ms ← req (getStrList d "device_messages")
    return ⟨n, i, ms⟩
  | _ => .error .badPayload

/-- DeviceList of messages/v0.py; __post_init__ converts each element
through Device(**device). -/
def parseDeviceListV0 (d : JObj) : Except DecodeError Incoming := do
  guardKeys d ["id", "devices"] []
  let i ← req (getInt d "id")
  match jlookup d "devices" with
  | some (.jarr xs) =>
    let ds ← xs.mapM parseDeviceV0
    return .deviceListV0 i ds
  | _ => .error .badPayload

/-- DeviceAdded of messages/v0.py. -/
def parseDeviceAddedV0 (d : JObj) : Except DecodeError Incoming := do
  guardKeys d ["id", "device_name", "device_index", "device_messages"] []
  let i ← req (getInt d "id")
  let n ← req (getStr d "device_name")
  let ix ← req (getInt d "device_index")
  let ms ← req (getStrList d "device_messages")
  return .deviceAddedV0 i n ix ms

/-- DeviceRemoved of messages/v0.py. -/
def parseDeviceRemoved (d : JObj) : Except DecodeError Incoming := do
  guardKeys d ["id", "device_index"] []
  let i ← req (getInt d "id")
  let ix ← req (getInt d "device_index")
  return .deviceRemovedV0 i ix

/-- DeviceMessageAttributes of messages/v1.py built from a raw JSON object
(FieldMeta snake-cases the keyword arguments; both fields default). -/
def parseAttrsV1 (v : JValue) : Except DecodeError DeviceMessageAttributesV1 := do
  match v with
  | .jobj a0 =>
    let a := snakeKeys a0
    guardKeys a [] ["feature_count"]
    match jlookup a "feature_count" with
    | none => return ⟨none⟩
    | some _ =>
      let fc ← req (getInt a "feature_count")
      return ⟨some fc⟩
  | _ => .error .badPayload

/-- The device_messages mapping of messages/v1.py: each value converted
through DeviceMessageAttributes(**attrs). -/
def parseMessagesMapV1 (v : JValue) :
    Except DecodeError (List (String × DeviceMessageAttributesV1)) := do
  match v with
  | .jobj entries =>
    entries.mapM (fun kv => do
      let a ← parseAttrsV1 kv.2
      return (kv.1, a))
  | _ => .error .badPayload

/-- Device of messages/v1.py. -/
def parseDeviceV1 (v : JValue) : Except DecodeError DeviceV1 := do
  match v with
  | .jobj d0 =>
    let d := snakeKeys d0
    guardKeys d ["device_name", "device_index", "device_messages"] []
    let n ← req (getStr d "device_name")
    let i ← req (getInt d "device_index")
    let mv ← req (jlookup d "device_messages")
    let ms ← parseMessagesMapV1 mv
    return ⟨n, i, ms⟩
  | _ => .error .badPayload

/-- DeviceList of messages/v1.py. -/
def parseDeviceListV1 (d : JObj) : Except DecodeError Incoming := do
  guardKeys d ["id", "devices"] []
  let i ← req (getInt d "id")
  match jlookup d "devices" with
  | some (.jarr xs) =>
    let ds ← xs.mapM parseDeviceV1
    return .deviceListV1 i ds
  | _ => .error .badPayload

/-- DeviceAdded of messages/v1.py. -/
def parseDeviceAddedV1 (d : JObj) : Except DecodeError Incoming := do
  guardKeys d ["id", "device_name", "device_index", "device_messages"] []
  let i ← req (getInt d "id")
  let n ← req (getStr d "device_name")
  let ix ← req (getInt d "device_index")
  let mv ← req (jlookup d "device_messages")
  let ms ← parseMessagesMapV1 mv
  return .deviceAddedV1 i n ix ms

/-- ServerInfo of messages/v2.py (drops the version triple of v0). -/
def parseServerInfoV2 (d : JObj) : Except DecodeError Incoming := do
  guardKeys d ["id", "server_name", "message_version", "max_ping_time"] []
  let i ← req (getInt d "id")
  let sn ← req (getStr d "server_name")
  let mvInt ← req (getInt d "message_version")
  let mv ← req (ProtocolSpec.ofInt mvInt)
  let mp ← req (getInt d "max_ping_time")
  return .serverInfoV2 i sn mv mp

/-- DeviceMessageAttributes of messages/v2.py. -/
def parseAttrsV2 (v : JValue) : Except DecodeError DeviceMessageAttributesV2 := do
  match v with
  | .jobj a0 =>
    let a := snakeKeys a0
    guardKeys a [] ["feature_count", "step_count"]
    let fc ← match jlookup a "feature_count" with
      | none => pure (none : Option Int)
      | some _ => do
        let x ← req (getInt a "feature_count")
        pure (some x)
    let sc ← match jlookup a "step_count" with
      | none => pure (none : Option (List Int))
      | some _ => do
        let x ← req (getIntList a "step_count")
        pure (some x)
    return ⟨fc, sc⟩
  | _ => .error .badPayload

/-- The device_messages mapping of messages/v2.py. -/
def parseMessagesMapV2 (v : JValue) :
    Except DecodeError (List (String × DeviceMessageAttributesV2)) := do
  match v with
  | .jobj entries =>
    entries.mapM (fun kv => do
      let a ← parseAttrsV2 kv.2
      return (kv.1, a))
  | _ => .error .badPayload

/-- Device of messages/v2.py. -/
def parseDeviceV2 (v : JValue) : Except DecodeError DeviceV2 := do
  match v with
  | .jobj d0 =>
    let d := snakeKeys d0
    guardKeys d ["device_name", "device_index", "device_messages"] []
    let n ← req (getStr d "device_name")
    let i ← req (getInt d "device_index")
    let mv ← req (jlookup d "device_messages")
    let ms ← parseMessagesMapV2 mv
    return ⟨n, i, ms⟩
  | _ => .error .badPayload

/-- DeviceList of messages/v2.py. -/
def parseDeviceListV2 (d : JObj) : Except DecodeError Incoming := do
  guardKeys d ["id", "devices"] []
  let i ← req (getInt d "id")
  match jlookup d "devices" with
  | some (.jarr xs) =>
    let ds ← xs.mapM parseDeviceV2
    return .deviceListV2 i ds
  | _ => .error .badPayload

/-- DeviceAdded of messages/v2.py. -/
def parseDeviceAddedV2 (d : JObj) : Except DecodeError Incoming := do
  guardKeys d ["id", "device_name", "device_index", "device_messages"] []
  let i ← req (getInt d "id")
  let n ← req (getStr d "device_name")
  let ix ← req (getInt d "device_index")
  let mv ← req (jlookup d "device_messages")
  let ms ← parseMessagesMapV2 mv
  return .deviceAddedV2 i n ix ms

/-- BatteryLevelReading of messages/v2.py. -/
def parseBatteryLevelReading (d : JObj) : Except DecodeError Incoming := do
  guardKeys d ["id", "device_index", "battery_level"] []
  let i ← req (getInt d "id")
  let ix ← req (getInt d "device_index")
  let lv ← req (getNum d "battery_level")
  return .batteryLevelReadingV2 i ix lv

/-- RSSILevelReading of messages/v2.py. -/
def parseRSSILevelReading (d : JObj) : Except DecodeError Incoming := do
  guardKeys d ["id", "device_index", "rssi_level"] []
  let i ← req (getInt d "id")
  let ix ← req (getInt d "device_index")
  let lv ← req (getInt d "rssi_level")
  return .rssiLevelReadingV2 i ix lv

/-- RawReading of messages/v2.py. -/
def parseRawReading (d : JObj) : Except DecodeError Incoming := do
  guardKeys d ["id", "device_index", "endpoint", "data"] []
  let i ← req (getInt d "id")
  let ix ← req (getInt d "device_index")
  let ep ← req (getStr d "endpoint")
  let dt ← req (getIntList d "data")
  return .rawReadingV2 i ix ep dt

/-- A sensor_range value: a list of two-element lists converted to pairs
by __post_init__ of messages/v3.py. -/
def parseRanges (v : JValue) : Except DecodeError (List (Int × Int)) := do
  match v with
  | .jarr xs =>
    xs.mapM (fun x => match x with
      | .jarr [.jnum a, .jnum b] =>
        if a.den = 1 && b.den = 1 then .ok (a.num, b.num)
        else .error .badPayload
      | _ => .error .badPayload)
  | _ => .error .badPayload

/-- DeviceMessageAttributes of messages/v3.py (all six fields default). -/
def parseAttrsV3 (v : JValue) : Except DecodeError DeviceMessageAttributesV3 := do
  match v with
  | .jobj a0 =>
    let a := snakeKeys a0
    guardKeys a [] ["feature_descriptor", "step_count", "actuator_type",
                    "sensor_type", "sensor_range", "endpoint"]
    let fd ← match jlookup a "feature_descriptor" with
      | none => pure (none : Option String)
      | some _ => do
        let x ← req (getStr a "feature_descriptor")
        pure (some x)
    let sc ← match jlookup a "step_count" with
      | none => pure (none : Option Int)
      | some _ => do
        let x ← req (getInt a "step_count")
        pure (some x)
    let at_ ← match jlookup a "actuator_type" with
      | none => pure (none : Option String)
      | some _ => do
        let x ← req (getStr a "actuator_type")
        pure (some x)
    let st ← match jlookup a "sensor_type" with
      | none => pure (none : Option String)
      | some _ => do
        let x ← req (getStr a "sensor_type")
        pure (some x)
    let sr ← match jlookup a "sensor_range" with
      | none => pure (none : Option (List (Int × Int)))
      | some rv => do
        let x ← parseRanges rv
        pure (some x)
    let ep ← match jlookup a "endpoint" with
      | none => pure (none : Option (List String))
      | some _ => do
        let x ← req (getStrList a "endpoint")
        pure (some x)
    return ⟨fd, sc, at_, st, sr, ep⟩
  | _ => .error .badPayload

/-- A device_messages value of messages/v3.py: a list of attribute records;
an empty JSON object also yields the empty list (iterating an empty dict in
__post_init__ produces no attributes), while a non-empty object fails
(its keys, plain strings, cannot be splatted into the Field constructor). -/
def parseAttrsListV3 (v : JValue) :
    Except DecodeError (List DeviceMessageAttributesV3) := do
  match v with
  | .jarr xs => xs.mapM parseAttrsV3
  | .jobj [] => return []
  | _ => .error .badPayload

/-- The device_messages mapping of messages/v3.py. -/
def parseMessagesMapV3 (v : JValue) :
    Except DecodeError (List (String × List DeviceMessageAttributesV3)) := do
  match v with
  | .jobj entries =>
    entries.mapM (fun kv => do
      let a ← parseAttrsListV3 kv.2
      return (kv.1, a))
  | _ => .error .badPayload

/-- Device of messages/v3.py (timing gap and display name default). -/
def parseDeviceV3 (v : JValue) : Except DecodeError DeviceV3 := do
  match v with
  | .jobj d0 =>
    let d := snakeKeys d0
    guardKeys d ["device_name", "device_index", "device_messages"]
      ["device_message_timing_gap", "device_display_name"]
    let n ← req (getStr d "device_name")
    let i ← req (getInt d "device_index")
    let mv ← req (jlookup d "device_messages")
    let ms ← parseMessagesMapV3 mv
    let tg ← match jlookup d "device_message_timing_gap" with
      | none => pure (none : Option Int)
      | some _ => do
        let x ← req (getInt d "device_message_timing_gap")
        pure (some x)
    let dn ← match jlookup d "device_display_name" with
      | none => pure (none : Option String)
      | some _ => do
        let x ← req (getStr d "device_display_name")
        pure (some x)
    return ⟨n, i, ms, tg, dn⟩
  | _ => .error .badPayload

/-- DeviceList of messages/v3.py. -/
def parseDeviceListV3 (d : JObj) : Except DecodeError Incoming := do
  guardKeys d ["id", "devices"] []
  let i ← req (getInt d "id")
  match jlookup d "devices" with
  | some (.jarr xs) =>
    let ds ← xs.mapM parseDeviceV3
    return .deviceListV3 i ds
  | _ => .error .badPayload

/-- DeviceAdded of messages/v3.py. -/
def parseDeviceAddedV3 (d : JObj) : Except DecodeError Incoming := do
  guardKeys d ["id", "device_name", "device_index", "device_messages"]
    ["device_message_timing_gap", "device_display_name"]
  let i ← req (getInt d "id")
  let n ← req (getStr d "device_name")
  let ix ← req (getInt d "device_index")
  let mv ← req (jlookup d "device_messages")
  let ms ← parseMessagesMapV3 mv
  let tg ← match jlookup d "device_message_timing_gap" with
    | none => pure (none : Option Int)
    | some _ => do
      let x ← req (getInt d "device_message_timing_gap")
      pure (some x)
  let dn ← match jlookup d "device_display_name" with
    | none => pure (none : Option String)
    | some _ => do
      let x ← req (getStr d "device_display_name")
      pure (some x)
  return .deviceAddedV3 i n ix ms tg dn

/-- SensorReading of messages/v3.py. -/
def parseSensorReading (d : JObj) : Except DecodeError Incoming := do
  guardKeys d ["id", "device_index", "sensor_index", "sensor_type", "data"] []
  let i ← req (getInt d "id")
  let ix ← req (getInt d "device_index")
  let si ← req (getInt d "sensor_index")
  let st ← req (getStr d "sensor_type")
  let dt ← req (getIntList d "data")
  return .sensorReadingV3 i ix si st dt

/-- The registered constructor for a (version, name) pair: the dispatch
Incoming._registry[i][message_type](**data). -/
def parseAt (i : ProtocolSpec) (name : String) (d : JObj) :
    Except DecodeError Incoming :=
  match i, name with
  | .v0, "Ok" => parseOk d
  | .v0, "Error" => parseError d
  | .v0, "ServerInfo" => parseServerInfoV0 d
  | .v0, "ScanningFinished" => parseScanningFinished d
  | .v0, "DeviceList" => parseDeviceListV0 d
  | .v0, "DeviceAdded" => parseDeviceAddedV0 d
  | .v0, "DeviceRemoved" => parseDeviceRemoved d
  | .v1, "DeviceList" => parseDeviceListV1 d
  | .v1, "DeviceAdded" => parseDeviceAddedV1 d
  | .v2, "ServerInfo" => parseServerInfoV2 d
  | .v2, "DeviceList" => parseDeviceListV2 d
  | .v2, "DeviceAdded" => parseDeviceAddedV2 d
  | .v2, "BatteryLevelReading" => parseBatteryLevelReading d
  | .v2, "RSSILevelReading" => parseRSSILevelReading d
  | .v2, "RawReading" => parseRawReading d
  | .v3, "DeviceList" => parseDeviceListV3 d
  | .v3, "DeviceAdded" => parseDeviceAddedV3 d
  | .v3, "SensorReading" => parseSensorReading d
  | _, _ => .error .badPayload

/-- The versions walked by the for-loop range(v, first-1, -1) of
Incoming.from_json: v downward to v0. -/
def versionsDesc : ProtocolSpec → List ProtocolSpec
  | .v0 => [.v0]
  | .v1 => [.v1, .v0]
  | .v2 => [.v2, .v1, .v0]
  | .v3 => [.v3, .v2, .v1, .v0]

/-- The walk of Incoming.from_json: first version in the descending list
whose registry holds the name. -/
def registryWalk (name : String) : List ProtocolSpec → Option ProtocolSpec
  | [] => none
  | i :: rest => if registryHas i name then some i else registryWalk name rest

/-- Incoming.from_json of messages/machinery.py on a single-key message
object: snake-case the payload keys, raise an unsupported-message TypeError
when the name is not in the negotiated version's message set, otherwise walk
the registries from the negotiated version down to v0 and construct the
first registered variant; when no registry holds the name the function falls
through and returns None. -/
def fromJson (v : ProtocolSpec) (name : String) (data : JObj) :
    Except DecodeError (Option Incoming) :=
  let d := snakeKeys data
  if messagesMem v name then
    match registryWalk name (versionsDesc v) with
    | some i => (parseAt i name d).map some
    | none => .ok none
  else .error .unsupportedMessage

/-- Decoder.decode of messages/machinery.py: a frame is a JSON array of
single-key message objects, decoded elementwise with the negotiated
version. -/
def decodeFrame (v : ProtocolSpec) (frame : List (String × JObj)) :
    Except DecodeError (List (Option Incoming)) :=
  frame.mapM (fun el => fromJson v el.1 el.2)

/-! ## Outgoing messages and the encoder -/

/-- Speed of messages/v1.py. -/
structure Speed where
  index : Int
  speed : ℚ
  deriving DecidableEq, Repr

/-- Vector of messages/v1.py. -/
structure Vector where
  index : Int
  duration : Int
  position : ℚ
  deriving DecidableEq, Repr

/-- Rotation of messages/v1.py. -/
structure Rotation where
  index : Int
  speed : ℚ
  clockwise : Bool
  deriving DecidableEq, Repr

/-- Scalar of messages/v3.py. -/
structure Scalar where
  index : Int
  scalar : ℚ
  actuator_type : String
  deriving DecidableEq, Repr

/-- The Outgoing message classes of messages/v0.py-v3.py, without the id
field (ids are drawn from message_id_generator at construction; the encoder
receives the id separately). -/
inductive Outgoing where
  | ping
  | requestServerInfoV0 (client_name : String)
  | startScanning
  | stopScanning
  | requestDeviceList
  | stopDeviceCmd (device_index : Int)
  | stopAllDevices
  | singleMotorVibrateCmd (device_index : Int) (speed : ℚ)
  | kiirooCmd (device_index : Int) (command : String)
  | fleshlightLaunchFW12Cmd (device_index : Int) (position : Int) (speed : Int)
  | lovenseCmd (device_index : Int) (command : String)
  | vorzeA10CycloneCmd (device_index : Int) (speed : Int) (clockwise : Bool)
  | requestServerInfoV1 (client_name : String) (message_version : ProtocolSpec)
  | vibrateCmd (device_index : Int) (speeds : List Speed)
  | linearCmd (device_index : Int) (vectors : List Vector)
  | rotateCmd (device_index : Int) (rotations : List Rotation)
  | batteryLevelCmd (device_index : Int)
  | rssiLevelCmd (device_index : Int)
  | rawWriteCmd (device_index : Int) (endpoint : String) (data : List Int)
      (write_with_response : Bool)
  | rawReadCmd (device_index : Int) (endpoint : String) (expected_length : Int)
      (wait_for_data : Bool)
  | rawSubscribeCmd (device_index : Int) (endpoint : String)
  | rawUnsubscribeCmd (device_index : Int) (endpoint : String)
  | scalarCmd (device_index : Int) (scalars : List Scalar)
  | sensorReadCmd (device_index : Int) (sensor_index : Int) (sensor_type : String)
  | sensorSubscribeCmd (device_index : Int) (sensor_index : Int)
      (sensor_type : String)
  | sensorUnsubscribeCmd (device_index : Int) (sensor_index : Int)
      (sensor_type : String)
  deriving DecidableEq, Repr

/-- type(o).__name__ of an outgoing message: the wire name the encoder
emits. -/
def Outgoing.wireName : Outgoing → String
  | .ping => "Ping"
  | .requestServerInfoV0 _ => "RequestServerInfo"
  | .startScanning => "StartScanning"
  | .stopScanning => "StopScanning"
  | .requestDeviceList => "RequestDeviceList"
  | .stopDeviceCmd _ => "StopDeviceCmd"
  | .stopAllDevices => "StopAllDevices"
  | .singleMotorVibrateCmd _ _ => "SingleMotorVibrateCmd"
  | .kiirooCmd _ _ => "KiirooCmd"
  | .fleshlightLaunchFW12Cmd _ _ _ => "FleshlightLaunchFW12Cmd"
  | .lovenseCmd _ _ => "LovenseCmd"
  | .vorzeA10CycloneCmd _ _ _ => "VorzeA10CycloneCmd"
  | .requestServerInfoV1 _ _ => "RequestServerInfo"
  | .vibrateCmd _ _ => "VibrateCmd"
  | .linearCmd _ _ => "LinearCmd"
  | .rotateCmd _ _ => "RotateCmd"
  | .batteryLevelCmd _ => "BatteryLevelCmd"
  | .rssiLevelCmd _ => "RSSILevelCmd"
  | .rawWriteCmd _ _ _ _ => "RawWriteCmd"
  | .rawReadCmd _ _ _ _ => "RawReadCmd"
  | .rawSubscribeCmd _ _ => "RawSubscribeCmd"
  | .rawUnsubscribeCmd _ _ => "RawUnsubscribeCmd"
  | .scalarCmd _ _ => "ScalarCmd"
  | .sensorReadCmd _ _ _ => "SensorReadCmd"
  | .sensorSubscribeCmd _ _ _ => "SensorSubscribeCmd"
  | .sensorUnsubscribeCmd _ _ _ => "SensorUnsubscribeCmd"

/-- The version module an outgoing variant is defined in. -/
def Outgoing.definedIn : Outgoing → ProtocolSpec
  | .ping | .requestServerInfoV0 _ | .startScanning | .stopScanning
  | .requestDeviceList | .stopDeviceCmd _ | .stopAllDevices
  | .singleMotorVibrateCmd _ _ | .kiirooCmd _ _
  | .fleshlightLaunchFW12Cmd _ _ _ | .lovenseCmd _ _
  | .vorzeA10CycloneCmd _ _ _ => .v0
  | .requestServerInfoV1 _ _ | .vibrateCmd _ _ | .linearCmd _ _
  | .rotateCmd _ _ => .v1
  | .batteryLevelCmd _ | .rssiLevelCmd _ | .rawWriteCmd _ _ _ _
  | .rawReadCmd _ _ _ _ | .rawSubscribeCmd _ _ | .rawUnsubscribeCmd _ _ => .v2
  | .scalarCmd _ _ | .sensorReadCmd _ _ _ | .sensorSubscribeCmd _ _ _
  | .sensorUnsubscribeCmd _ _ _ => .v3

/-- Encoder.default on a nested Speed Field: its dict with PascalCase
keys, no wrapping. -/
def Speed.toWire (s : Speed) : JValue :=
  .jobj [("Index", .jnum s.index), ("Speed", .jnum s.speed)]

/-- Encoder.default on a nested Vector Field. -/
def Vector.toWire (v : Vector) : JValue :=
  .jobj [("Index", .jnum v.index), ("Duration", .jnum v.duration),
         ("Position", .jnum v.position)]

/-- Encoder.default on a nested Rotation Field. -/
def Rotation.toWire (r : Rotation) : JValue :=
  .jobj [("Index", .jnum r.index), ("Speed", .jnum r.speed),
         ("Clockwise", .jbool r.clockwise)]

/-- Encoder.default on a nested Scalar Field. -/
def Scalar.toWire (s : Scalar) : JValue :=
  .jobj [("Index", .jnum s.index), ("Scalar", .jnum s.scalar),
         ("ActuatorType", .jstr s.actuator_type)]

/-- The instance __dict__ of an outgoing message except the leading id
entry: snake_case keys in dataclass field order, values already serialized
(nested Field records through their toWire forms, IntEnums as integers). -/
def Outgoing.fields : Outgoing → JObj
  | .ping => []
  | .requestServerInfoV0 n => [("client_name", .jstr n)]
  | .startScanning => []
  | .stopScanning => []
  | .requestDeviceList => []
  | .stopDeviceCmd ix => [("device_index", .jnum ix)]
  | .stopAllDevices => []
  | .singleMotorVibrateCmd ix sp =>
      [("device_index", .jnum ix), ("speed", .jnum sp)]
  | .kiirooCmd ix c => [("device_index", .jnum ix), ("command", .jstr c)]
  | .fleshlightLaunchFW12Cmd ix p sp =>
      [("device_index", .jnum ix), ("position", .jnum p), ("speed", .jnum sp)]
  | .lovenseCmd ix c => [("device_index", .jnum ix), ("command", .jstr c)]
  | .vorzeA10CycloneCmd ix sp cw =>
      [("device_index", .jnum ix), ("speed", .jnum sp), ("clockwise", .jbool cw)]
  | .requestServerInfoV1 n v =>
      [("client_name", .jstr n), ("message_version", .jnum v.toNat)]
  | .vibrateCmd ix sps =>
      [("device_index", .jnum ix), ("speeds", .jarr (sps.map Speed.toWire))]
  | .linearCmd ix vs =>
      [("device_index", .jnum ix), ("vectors", .jarr (vs.map Vector.toWire))]
  | .rotateCmd ix rs =>
      [("device_index", .jnum ix), ("rotations", .jarr (rs.map Rotation.toWire))]
  | .batteryLevelCmd ix => [("device_index", .jnum ix)]
  | .rssiLevelCmd ix => [("device_index", .jnum ix)]
  | .rawWriteCmd ix ep dt wr =>
      [("device_index", .jnum ix), ("endpoint", .jstr ep),
       ("data", .jarr (dt.map (fun n => .jnum n))), ("write_with_response", .jbool wr)]
  | .rawReadCmd ix ep el wd =>
      [("device_index", .jnum ix), ("endpoint", .jstr ep),
       ("expected_length", .jnum el), ("wait_for_data", .jbool wd)]
  | .rawSubscribeCmd ix ep =>
      [("device_index", .jnum ix), ("endpoint", .jstr ep)]
  | .rawUnsubscribeCmd ix ep =>
      [("device_index", .jnum ix), ("endpoint", .jstr ep)]
  | .scalarCmd ix ss =>
      [("device_index", .jnum ix), ("scalars", .jarr (ss.map Scalar.toWire))]
  | .sensorReadCmd ix si st =>
      [("device_index", .jnum ix), ("sensor_index", .jnum si),
       ("sensor_type", .jstr st)]
  | .sensorSubscribeCmd ix si st =>
      [("device_index", .jnum ix), ("sensor_index", .jnum si),
       ("sensor_type", .jstr st)]
  | .sensorUnsubscribeCmd ix si st =>
      [("device_index", .jnum ix), ("sensor_index", .jnum si),
       ("sensor_type", .jstr st)]

/-- Encoder.default of messages/machinery.py on an Outgoing value with the
given id: the single-key object whose key is the class name and whose value
is the instance dict (id first) with keys pascal-cased. -/
def encodeOutgoing (id : Int) (m : Outgoing) : String × JObj :=
  (m.wireName,
   (("id", .jnum id) :: m.fields).map (fun kv => (pascal_case kv.1, kv.2)))

/-! ## client/client.py: sensors, devices and the message handler

The model is the client as configured for protocol v3 (the default
ProtocolSpec(0).last), which is the version the sensor and scalar claims
concern; the decoder of such a client only ever produces v3 DeviceAdded and
DeviceList variants. -/

/-- A sensor-data callback slot.  The source initializes the slot with the
module-level function _no_callback (a no-op) and stores user callables on
subscribe; user callables are modelled by tokens. -/
inductive Callback where
  | noCallback
  | user (f : Nat)
  deriving DecidableEq, Repr

/-- Invoking a callback: _no_callback does nothing (its body is pass); a
user callback receives the data.  The result lists the user invocations the
call produces. -/
def Callback.run (cb : Callback) (data : List Int) : List (Nat × List Int) :=
  match cb with
  | .noCallback => []
  | .user f => [(f, data)]

/-- The state shared by GenericSensor and SubscribableSensor: the owning
device's index, the sensor's index, and the v3 attribute values it was
constructed from. -/
structure GenericSensorState where
  device_index : Int
  index : Nat
  description : Option String
  sensor_type : Option String
  ranges : Option (List (Int × Int))
  deriving DecidableEq, Repr

/-- SubscribableSensor state: the generic state plus the callback slot,
which __init__ sets to _no_callback. -/
structure SubscribableSensorState extends GenericSensorState where
  callback : Callback := .noCallback
  deriving DecidableEq, Repr

/-- A slot of Device._sensors: either a plain GenericSensor or a promoted
SubscribableSensor. -/
inductive SensorSlot where
  | generic (s : GenericSensorState)
  | subscribable (s : SubscribableSensorState)
  deriving DecidableEq, Repr

/-- The description attribute of a sensor slot. -/
def SensorSlot.description : SensorSlot → Option String
  | .generic s => s.description
  | .subscribable s => s.description

/-- The type attribute of a sensor slot. -/
def SensorSlot.stype : SensorSlot → Option String
  | .generic s => s.sensor_type
  | .subscribable s => s.sensor_type

/-- The ranges attribute of a sensor slot. -/
def SensorSlot.sranges : SensorSlot → Option (List (Int × Int))
  | .generic s => s.ranges
  | .subscribable s => s.ranges

/-- Whether a slot holds a SubscribableSensor. -/
def SensorSlot.isSubscribable : SensorSlot → Bool
  | .generic _ => false
  | .subscribable _ => true

/-- The enumerate loop of Device.__init__ (v3 branch) over SensorReadCmd
attribute entries, carrying the running local index. -/
def mkGenericSensorsAux (dev : Int) (i : Nat) :
    List DeviceMessageAttributesV3 → List SensorSlot
  | [] => []
  | a :: rest =>
    .generic ⟨dev, i, a.feature_descriptor, a.sensor_type, a.sensor_range⟩ ::
      mkGenericSensorsAux dev (i + 1) rest

/-- The GenericSensor list built from the SensorReadCmd attribute entries in
Device.__init__ (v3 branch): one sensor per entry, locally indexed. -/
def mkGenericSensors (dev : Int) (attrs : List DeviceMessageAttributesV3) :
    List SensorSlot :=
  mkGenericSensorsAux dev 0 attrs

/-- One SensorSubscribeCmd attribute entry of Device.__init__: scan the
sensor list in order and replace the first slot whose description and type
equal the entry's feature_descriptor and sensor_type by a SubscribableSensor
with the same data and a fresh no-op callback; the for-else logs an error
when no slot matches (the log itself is not modelled). -/
def promoteFirst (dev : Int) (a : DeviceMessageAttributesV3) :
    Nat → List SensorSlot → List SensorSlot
  | _, [] => []
  | i, s :: rest =>
    if s.description == a.feature_descriptor && s.stype == a.sensor_type then
      .subscribable ⟨⟨dev, i, s.description, s.stype, s.sranges⟩, .noCallback⟩ :: rest
    else s :: promoteFirst dev a (i + 1) rest

/-- All SensorSubscribeCmd entries applied in order. -/
def promoteAll (dev : Int) (subs : List DeviceMessageAttributesV3)
    (sensors : List SensorSlot) : List SensorSlot :=
  subs.foldl (fun acc a => promoteFirst dev a 0 acc) sensors

/-- Scalar actuator state (v3 branch of Device.__init__). -/
structure ScalarActuatorState where
  index : Nat
  description : Option String
  actuator_type : Option String
  step_count : Option Int
  deriving DecidableEq, Repr

/-- Linear actuator state (v3 branch of Device.__init__). -/
structure LinearActuatorState where
  index : Nat
  description : Option String
  step_count : Option Int
  deriving DecidableEq, Repr

/-- Rotatory actuator state (v3 branch of Device.__init__). -/
structure RotatoryActuatorState where
  index : Nat
  description : Option String
  step_count : Option Int
  deriving DecidableEq, Repr

/-- Device state after construction. -/
structure DeviceState where
  name : String
  index : Int
  message_timing_gap : Option Int
  display_name : Option String
  removed : Bool
  stop : Bool
  actuators : List ScalarActuatorState
  linear_actuators : List LinearActuatorState
  rotatory_actuators : List RotatoryActuatorState
  sensors : List SensorSlot
  deriving DecidableEq, Repr

/-- The capability entries claimed by one messages.pop(name, default) of the
v3 branch (the dict has unique keys, so the sequence of pops reads each key
at most once). -/
def capGet (caps : List (String × List DeviceMessageAttributesV3))
    (k : String) : List DeviceMessageAttributesV3 :=
  ((caps.find? (fun kv => kv.1 = k)).map Prod.snd).getD []

/-- Whether a capability key is present (the try/except KeyError around
messages.pop of StopDeviceCmd). -/
def capHas (caps : List (String × List DeviceMessageAttributesV3))
    (k : String) : Bool :=
  (caps.find? (fun kv => kv.1 = k)).isSome

/-- Device.__init__ of client/client.py for a v3 client: claim
StopDeviceCmd for the stop flag, build scalar, linear and rotatory actuators
from their capability entries, build GenericSensors from SensorReadCmd, then
promote slots matched by SensorSubscribeCmd entries.  Unclaimed keys are
logged and accepted. -/
def mkDeviceV3 (name : String) (index : Int)
    (caps : List (String × List DeviceMessageAttributesV3))
    (gap : Option Int) (disp : Option String) : DeviceState where
  name := name
  index := index
  message_timing_gap := gap
  display_name := disp
  removed := false
  stop := capHas caps "StopDeviceCmd"
  actuators := (capGet caps "ScalarCmd").enum.map (fun ia =>
    ⟨ia.1, ia.2.feature_descriptor, ia.2.actuator_type, ia.2.step_count⟩)
  linear_actuators := (capGet caps "LinearCmd").enum.map (fun ia =>
    ⟨ia.1, ia.2.feature_descriptor, ia.2.step_count⟩)
  rotatory_actuators := (capGet caps "RotateCmd").enum.map (fun ia =>
    ⟨ia.1, ia.2.feature_descriptor, ia.2.step_count⟩)
  sensors := promoteAll index (capGet caps "SensorSubscribeCmd")
    (mkGenericSensors index (capGet caps "SensorReadCmd"))

/-! ## client/client.py: session state, response routing and dispatch -/

/-- Python exceptions that can escape the handler paths modelled here. -/
inductive PyError where
  | typeError
  | keyError
  deriving DecidableEq, Repr

/-- Session state of Client: the pending-request table _tasks (id to future
token), the device registry _devices (device_index to state) and the scan
future _scanning.  Dicts are association lists with unique keys. -/
structure ClientState where
  tasks : List (Int × Nat)
  devices : List (Int × DeviceState)
  scanning : Option Nat
  deriving DecidableEq, Repr

/-- Observable effects of handling one decoded message. -/
inductive ClientEvent where
  | fulfilled (future : Nat) (m : Incoming)
  | scanFulfilled (future : Nat)
  | callbackInvoked (cb : Callback) (data : List Int)
  | errorLogged (context : String)
  deriving DecidableEq, Repr

/-- Python sequence indexing seq[i]: negative indices count from the end;
out-of-range indexing raises IndexError (here none, which the caller's
try/except IndexError turns into a log entry). -/
def pyGet {α : Type} (l : List α) (i : Int) : Option α :=
  if i < 0 then
    if (-i).toNat ≤ l.length then l.get? (l.length - (-i).toNat) else none
  else l.get? i.toNat

/-- Association-list lookup standing for dict indexing. -/
def alistFind {α : Type} (l : List (Int × α)) (k : Int) : Option α :=
  (l.find? (fun kv => kv.1 = k)).map Prod.snd

/-- Association-list deletion standing for del dict[k]. -/
def alistErase {α : Type} (l : List (Int × α)) (k : Int) : List (Int × α) :=
  l.filter (fun kv => kv.1 ≠ k)

/-- Association-list insertion standing for dict[k] = v. -/
def alistInsert {α : Type} (l : List (Int × α)) (k : Int) (v : α) :
    List (Int × α) :=
  alistErase l k ++ [(k, v)]

/-- Client._handle_message of client/client.py (v3 client), one decoded
message.  Server-initiated messages (id 0) dispatch on the variant; any
other id fulfills and removes its pending entry when present, and is logged
otherwise.  A v0/v1/v2 DeviceAdded in a v3 client would reach the v3
Device.__init__ branch with payloads of the wrong shape and raise (such
variants cannot be produced by the v3 decoder); a DeviceRemoved for an
unknown index raises KeyError. -/
def handleIncoming (st : ClientState) (m : Incoming) :
    Except PyError (ClientState × List ClientEvent) :=
  if m.id = 0 then
    match m with
    | .errorV0 _ _ _ => .ok (st, [.errorLogged "unmatched error message"])
    | .scanningFinishedV0 _ =>
      match st.scanning with
      | some f => .ok ({ st with scanning := none }, [.scanFulfilled f])
      | none => .ok (st, [])
    | .deviceAddedV3 _ n ix caps gap disp =>
      let d := mkDeviceV3 n ix caps gap disp
      .ok ({ st with devices := alistInsert st.devices ix d }, [])
    | .deviceAddedV0 _ _ _ _ => .error .typeError
    | .deviceAddedV1 _ _ _ _ => .error .typeError
    | .deviceAddedV2 _ _ _ _ => .error .typeError
    | .deviceRemovedV0 _ ix =>
      match alistFind st.devices ix with
      | some d =>
        .ok ({ st with devices :=
                 alistErase (alistInsert st.devices ix { d with removed := true }) ix },
             [])
      | none => .error .keyError
    | .sensorReadingV3 _ dix six _ data =>
      match alistFind st.devices dix with
      | none => .ok (st, [.errorLogged "unknown device"])
      | some d =>
        match pyGet d.sensors six with
        | none => .ok (st, [.errorLogged "unknown sensor"])
        | some (.generic _) => .ok (st, [.errorLogged "sensor not subscribable"])
        | some (.subscribable s) => .ok (st, [.callbackInvoked s.callback data])
    | .rawReadingV2 _ _ _ _ => .ok (st, [])
    | _ => .ok (st, [.errorLogged "unexpected message"])
  else
    match alistFind st.tasks m.id with
    | some f => .ok ({ st with tasks := alistErase st.tasks m.id },
                     [.fulfilled f m])
    | none => .ok (st, [.errorLogged "unexpected id"])

/-- Client.start_scanning of client/client.py: when no scan future exists,
store a fresh future and send one StartScanning; the stored future is
returned either way.  The result is the new state, the returned future and
the messages sent. -/
def startScanning (st : ClientState) (freshFuture : Nat) :
    ClientState × Nat × List Outgoing :=
  match st.scanning with
  | some f => (st, f, [])
  | none => ({ st with scanning := some freshFuture }, freshFuture,
             [.startScanning])

/-! ## client/client.py: SubscribableSensor subscribe and unsubscribe -/

/-- The outcome of a device-part command after the response arrives. -/
inductive CommandResult where
  | okResult
  | raisedServer (code : ErrorCode) (message : String)
  | raisedUnexpected
  deriving DecidableEq, Repr

/-- A constructor call of a v3 sensor wire-command class as the source
writes it: the class called and the three positional arguments
self._device.index, self._index and self._type. -/
structure SensorCmdCall where
  message_class : String
  device_index : Int
  sensor_index : Nat
  sensor_type : Option String
  deriving DecidableEq, Repr

/-- The wire message SubscribableSensor.subscribe constructs:
v3.SensorSubscribeCmd(self._device.index, self._index, self._type). -/
def SubscribableSensorState.subscribeCall (s : SubscribableSensorState) :
    SensorCmdCall :=
  ⟨"SensorSubscribeCmd", s.device_index, s.index, s.sensor_type⟩

/-- The wire message SubscribableSensor.unsubscribe constructs: the source
(client/client.py line 1047) calls
v3.SensorSubscribeCmd(self._device.index, self._index, self._type). -/
def SubscribableSensorState.unsubscribeCall (s : SubscribableSensorState) :
    SensorCmdCall :=
  ⟨"SensorSubscribeCmd", s.device_index, s.index, s.sensor_type⟩

/-- SubscribableSensor.subscribe handling the response: Ok installs the
callback, Error raises the server error, anything else raises
UnexpectedMessageError. -/
def SubscribableSensorState.subscribeHandle (s : SubscribableSensorState)
    (cb : Callback) (response : Incoming) :
    SubscribableSensorState × CommandResult :=
  match response with
  | .okV0 _ => ({ s with callback := cb }, .okResult)
  | .errorV0 _ msg code => (s, .raisedServer code msg)
  | _ => (s, .raisedUnexpected)

/-- SubscribableSensor.unsubscribe handling the response: Ok resets the
callback to _no_callback, Error raises the server error, anything else
raises UnexpectedMessageError. -/
def SubscribableSensorState.unsubscribeHandle (s : SubscribableSensorState)
    (response : Incoming) : SubscribableSensorState × CommandResult :=
  match response with
  | .okV0 _ => ({ s with callback := .noCallback }, .okResult)
  | .errorV0 _ msg code => (s, .raisedServer code msg)
  | _ => (s, .raisedUnexpected)

/-! ## Specification-side description of sensor promotion -/

/-- The pair the promotion loop matches on: an attribute entry's
feature_descriptor and sensor_type. -/
def attrPair (a : DeviceMessageAttributesV3) : Option String × Option String :=
  (a.feature_descriptor, a.sensor_type)

/-- The sensor list the (amended) specification describes, slot by slot:
a slot is a SubscribableSensor when its descriptor-type pair appears among
the SensorSubscribeCmd pairs AND the slot is the first one bearing that
pair; every other slot is a plain GenericSensor.  The argument seen lists
the pairs of the slots before the current one. -/
def specSlotsAux (dev : Int) (i : Nat)
    (seen : List (Option String × Option String))
    (reads : List DeviceMessageAttributesV3)
    (subPairs : List (Option String × Option String)) : List SensorSlot :=
  match reads with
  | [] => []
  | a :: rest =>
    (if attrPair a ∈ subPairs ∧ attrPair a ∉ seen then
      .subscribable ⟨⟨dev, i, a.feature_descriptor, a.sensor_type,
                      a.sensor_range⟩, .noCallback⟩
    else
      .generic ⟨dev, i, a.feature_descriptor, a.sensor_type, a.sensor_range⟩) ::
      specSlotsAux dev (i + 1) (seen ++ [attrPair a]) rest subPairs

/-- Specification-side definition for the amended claim C5: the sensors
list holds a SubscribableSensor with a no-op callback in exactly those slots
whose descriptor-type pair appears among the SensorSubscribeCmd entries and
that are the first slot bearing their pair, and a plain GenericSensor in
every other slot. -/
def sensorsSpec (dev : Int) (reads subs : List DeviceMessageAttributesV3) :
    List SensorSlot :=
  specSlotsAux dev 0 [] reads (subs.map attrPair)

/-! ## Concrete example inputs -/

/-- A v3 sensor attribute entry: descriptor S, type Pressure. -/
def exampleAttr : DeviceMessageAttributesV3 :=
  ⟨some "S", none, none, some "Pressure", none, none⟩

/-- A capability map whose SensorReadCmd lists the same descriptor-type
pair twice while SensorSubscribeCmd lists it once. -/
def duplicateCaps : List (String × List DeviceMessageAttributesV3) :=
  [("SensorReadCmd", [exampleAttr, exampleAttr]),
   ("SensorSubscribeCmd", [exampleAttr])]

/-- The device built from duplicateCaps. -/
def duplicateSensorDevice : DeviceState := mkDeviceV3 "Dev" 0 duplicateCaps none none

/-- A device with one subscribable pressure sensor at slot 0. -/
def pressureSensorDevice : DeviceState :=
  mkDeviceV3 "Dev" 0
    [("SensorReadCmd", [exampleAttr]), ("SensorSubscribeCmd", [exampleAttr])]
    none none

/-! ## Helper lemmas -/
theorem alistFind_alistErase_self {α : Type} (l : List (Int × α)) (k : Int) :
    alistFind (alistErase l k) k = none := by
  unfold alistFind alistErase
  have hfind : List.find? (fun kv : Int × α => decide (kv.1 = k))
      (List.filter (fun kv => decide (kv.1 ≠ k)) l) = none := by
    rw [List.find?_eq_none]
    intro kv hkv
    have h2 := List.of_mem_filter hkv
    simp at h2 ⊢
    exact h2
  rw [hfind]
  rfl

theorem specSlotsAux_append_mem (dev : Int)
    (pa : Option String × Option String)
    (P : List (Option String × Option String)) :
    ∀ (reads : List DeviceMessageAttributesV3) (i : Nat)
      (seen : List (Option String × Option String)),
      pa ∈ seen →
      specSlotsAux dev i seen reads (P ++ [pa]) =
        specSlotsAux dev i seen reads P := by
  intro reads
  induction reads with
  | nil => intro i seen _; rfl
  | cons a rest ih =>
    intro i seen h
    simp only [specSlotsAux]
    have hiff : (attrPair a ∈ P ++ [pa] ∧ attrPair a ∉ seen) ↔
        (attrPair a ∈ P ∧ attrPair a ∉ seen) := by
      constructor
      · rintro ⟨h1, h2⟩
        refine ⟨?_, h2⟩
        rcases List.mem_append.mp h1 with h3 | h3
        · exact h3
        · exact absurd (by rw [List.mem_singleton.mp h3]; exact h) h2
      · rintro ⟨h1, h2⟩
        exact ⟨List.mem_append.mpr (Or.inl h1), h2⟩
    rw [if_congr hiff rfl rfl]
    rw [ih (i + 1) (seen ++ [attrPair a]) (List.mem_append.mpr (Or.inl h))]

theorem promoteFirst_specSlots (dev : Int) (a : DeviceMessageAttributesV3)
    (P : List (Option String × Option String)) :
    ∀ (reads : List DeviceMessageAttributesV3) (i : Nat)
      (seen : List (Option String × Option String)),
      attrPair a ∉ seen →
      promoteFirst dev a i (specSlotsAux dev i seen reads P) =
        specSlotsAux dev i seen reads (P ++ [attrPair a]) := by
  intro reads
  induction reads with
  | nil => intro i seen _; rfl
  | cons r rest ih =>
    intro i seen h
    simp only [specSlotsAux, promoteFirst]
    rw [apply_ite SensorSlot.description, apply_ite SensorSlot.stype,
      apply_ite SensorSlot.sranges]
    simp only [SensorSlot.description, SensorSlot.stype, SensorSlot.sranges,
      ite_self]
    by_cases hr : attrPair r = attrPair a
    · have hfd : r.feature_descriptor = a.feature_descriptor := congrArg Prod.fst hr
      have hst : r.sensor_type = a.sensor_type := congrArg Prod.snd hr
      rw [if_pos (by rw [hfd, hst]; simp)]
      have hcondR : attrPair r ∈ P ++ [attrPair a] ∧ attrPair r ∉ seen :=
        ⟨List.mem_append.mpr (Or.inr (by rw [hr]; exact List.mem_singleton.mpr rfl)),
         by rw [hr]; exact h⟩
      rw [if_pos hcondR]
      rw [specSlotsAux_append_mem dev (attrPair a) P rest (i + 1)
        (seen ++ [attrPair r])
        (List.mem_append.mpr (Or.inr (List.mem_singleton.mpr hr.symm)))]
    · have hcf : ¬((r.feature_descriptor == a.feature_descriptor) &&
          (r.sensor_type == a.sensor_type)) = true := by
        simp only [Bool.and_eq_true, beq_iff_eq]
        rintro ⟨h1, h2⟩
        exact hr (by simp only [attrPair, h1, h2])
      rw [if_neg hcf]
      have hiff : (attrPair r ∈ P ++ [attrPair a] ∧ attrPair r ∉ seen) ↔
          (attrPair r ∈ P ∧ attrPair r ∉ seen) := by
        constructor
        · rintro ⟨h1, h2⟩
          refine ⟨?_, h2⟩
          rcases List.mem_append.mp h1 with h3 | h3
          · exact h3
          · exact absurd (List.mem_singleton.mp h3) hr
        · rintro ⟨h1, h2⟩
          exact ⟨List.mem_append.mpr (Or.inl h1), h2⟩
      rw [if_congr hiff rfl rfl]
      rw [ih (i + 1) (seen ++ [attrPair r]) ?_]
      intro hx
      rcases List.mem_append.mp hx with h3 | h3
      · exact h h3
      · exact hr (List.mem_singleton.mp h3).symm

theorem specSlotsAux_nil (dev : Int) :
    ∀ (reads : List DeviceMessageAttributesV3) (i : Nat)
      (seen : List (Option String × Option String)),
      specSlotsAux dev i seen reads [] = mkGenericSensorsAux dev i reads := by
  intro reads
  induction reads with
  | nil => intro i seen; rfl
  | cons a rest ih =>
    intro i seen
    simp only [specSlotsAux, mkGenericSensorsAux]
    rw [if_neg (by simp)]
    rw [ih (i + 1) (seen ++ [attrPair a])]

theorem promoteAll_spec (dev : Int) :
    ∀ (subs : List DeviceMessageAttributesV3)
      (P : List (Option String × Option String))
      (reads : List DeviceMessageAttributesV3),
      subs.foldl (fun acc a => promoteFirst dev a 0 acc)
          (specSlotsAux dev 0 [] reads P) =
        specSlotsAux dev 0 [] reads (P ++ subs.map attrPair) := by
  intro subs
  induction subs with
  | nil => intro P reads; simp
  | cons a rest ih =>
    intro P reads
    simp only [List.foldl_cons, List.map_cons]
    rw [promoteFirst_specSlots dev a P reads 0 [] (by simp)]
    rw [ih (P ++ [attrPair a]) reads]
    simp

theorem mkDeviceV3_sensors_eq (name : String) (ix : Int)
    (caps : List (String × List DeviceMessageAttributesV3))
    (gap : Option Int) (disp : Option String) :
    (mkDeviceV3 name ix caps gap disp).sensors =
      sensorsSpec ix (capGet caps "SensorReadCmd")
        (capGet caps "SensorSubscribeCmd") := by
  show promoteAll ix (capGet caps "SensorSubscribeCmd")
      (mkGenericSensors ix (capGet caps "SensorReadCmd")) = _
  rw [promoteAll, mkGenericSensors, sensorsSpec]
  rw [← specSlotsAux_nil ix (capGet caps "SensorReadCmd") 0 []]
  have h := promoteAll_spec ix (capGet caps "SensorSubscribeCmd") []
    (capGet caps "SensorReadCmd")
  simpa using h

theorem specSlotsAux_callback (dev : Int) :
    ∀ (reads : List DeviceMessageAttributesV3) (i : Nat)
      (seen P : List (Option String × Option String))
      (s : SubscribableSensorState),
      SensorSlot.subscribable s ∈ specSlotsAux dev i seen reads P →
      s.callback = .noCallback := by
  intro reads
  induction reads with
  | nil => intro i seen P s h; simp [specSlotsAux] at h
  | cons a rest ih =>
    intro i seen P s h
    simp only [specSlotsAux, List.mem_cons] at h
    rcases h with h | h
    · by_cases hc : attrPair a ∈ P ∧ attrPair a ∉ seen
      · rw [if_pos hc] at h
        cases h
        rfl
      · rw [if_neg hc] at h
        cases h
    · exact ih (i + 1) (seen ++ [attrPair a]) P s h

/-! ## Claim theorems -/

/-- C1 (counterexample to the claim as stated): decoding the frame
containing StopAllDevices with Id 1 under negotiated version v3 yields None,
not the v0 StopAllDevices variant: StopAllDevices subclasses Outgoing, so no
Incoming registry holds it, even though the name is in the v3 message set. -/
theorem c1_counterexample :
    decodeFrame .v3 [("StopAllDevices", [("Id", .jnum 1)])] = .ok [none] ∧
    messagesMem .v3 "StopAllDevices" = true ∧
    (∀ i : ProtocolSpec, registryHas i "StopAllDevices" = false) := by
  refine ⟨rfl, rfl, ?_⟩
  intro i
  cases i <;> rfl

/-- C1 (amended): for every name N in the message set of negotiated version
V that has a registered Incoming variant at some version i ≤ V, with no
registration at any later version ≤ V, decoding an object named N under V
constructs version i's variant (the latest registration not above V); names
with no registered Incoming variant, such as the Outgoing-only
StopAllDevices, decode to None instead. -/
theorem c1_version_fallback (v i : ProtocolSpec) (name : String) (d : JObj)
    (hmem : messagesMem v name = true)
    (hreg : registryHas i name = true)
    (hle : i.toNat ≤ v.toNat)
    (hlatest : ∀ j : ProtocolSpec, i.toNat < j.toNat → j.toNat ≤ v.toNat →
      registryHas j name = false) :
    fromJson v name d = (parseAt i name (snakeKeys d)).map some := by
  have h1 := hlatest .v1
  have h2 := hlatest .v2
  have h3 := hlatest .v3
  cases v <;> cases i <;>
    simp_all [fromJson, versionsDesc, registryWalk, ProtocolSpec.toNat]

/-- Witness for C1: Ok is registered at v0 only; decoding it under v3 falls
back to the v0 variant. -/
theorem c1_version_fallback_witness :
    fromJson .v3 "Ok" [("Id", .jnum 1)] =
      (parseAt .v0 "Ok" (snakeKeys [("Id", .jnum 1)])).map some ∧
    fromJson .v3 "Ok" [("Id", .jnum 1)] = .ok (some (.okV0 1)) :=
  ⟨c1_version_fallback .v3 .v0 "Ok" _ (by decide) (by decide) (by decide)
    (by decide), rfl⟩

/-- C2 (counterexample to the claim as stated): encoding the one-element
list holding Ping with id 1 and decoding it against v0 (the version Ping
belongs to) yields a list holding None, not a message equal to Ping:
Outgoing classes are never registered for decoding. -/
theorem c2_counterexample :
    decodeFrame .v0 [encodeOutgoing 1 .ping] = .ok [none] := rfl

/-- C2 (amended): for every outgoing message M with any well-typed field
values and id k, decoding the encoded frame against the version M belongs to
yields the one-element list holding None (no Outgoing variant is registered
for decoding); the frame itself is faithful: its single key is M's class
name and snake-casing its payload keys recovers M's internal field map with
the id first. -/
theorem c2_roundtrip_amended (id : Int) (m : Outgoing) :
    decodeFrame m.definedIn [encodeOutgoing id m] = .ok [none] ∧
    (encodeOutgoing id m).1 = m.wireName ∧
    snakeKeys (encodeOutgoing id m).2 = ("id", .jnum id) :: m.fields := by
  cases m <;> exact ⟨rfl, rfl, rfl⟩

/-- C3: decoding any object whose name is not in the message set of the
negotiated version raises the unsupported-message error. -/
theorem c3_unsupported_rejection (v : ProtocolSpec) (name : String) (d : JObj)
    (h : messagesMem v name = false) :
    fromJson v name d = .error .unsupportedMessage := by
  simp [fromJson, h]

/-- Witness for C3: BatteryLevelReading is removed at v3, so decoding it
under v3 errors, although the v2 registry still holds a variant of it. -/
theorem c3_unsupported_rejection_witness :
    fromJson .v3 "BatteryLevelReading"
        [("Id", .jnum 1), ("DeviceIndex", .jnum 0), ("BatteryLevel", .jnum (1/2))] =
      .error .unsupportedMessage ∧
    registryHas .v2 "BatteryLevelReading" = true ∧
    messagesMem .v2 "BatteryLevelReading" = true :=
  ⟨c3_unsupported_rejection .v3 "BatteryLevelReading" _ (by decide),
   by decide, by decide⟩

/-- C4 (the code at the claim's failing input): SubscribableSensor's
unsubscribe constructs SensorSubscribeCmd, not the SensorUnsubscribeCmd the
claim (and the spec's design notes) require, carrying the device index,
sensor index and sensor type; the second half of the claim holds: an Ok
response resets the callback to the no-op. -/
theorem c4_unsubscribe_wire_message (s : SubscribableSensorState) :
    s.unsubscribeCall =
      ⟨"SensorSubscribeCmd", s.device_index, s.index, s.sensor_type⟩ ∧
    s.unsubscribeCall.message_class ≠ "SensorUnsubscribeCmd" ∧
    (∀ k : Int, s.unsubscribeHandle (.okV0 k) =
      ({ s with callback := .noCallback }, .okResult)) :=
  ⟨rfl, show ("SensorSubscribeCmd" : String) ≠ "SensorUnsubscribeCmd" by decide,
   fun _ => rfl⟩

/-- C5 (counterexample to the claim as stated): with SensorReadCmd listing
the descriptor-type pair (S, Pressure) twice and SensorSubscribeCmd listing
it once, slot 1's pair appears among the subscribe entries yet slot 1 stays
a plain GenericSensor: each subscribe entry promotes only the first matching
slot. -/
theorem c5_counterexample :
    (capGet duplicateCaps "SensorSubscribeCmd").map attrPair =
      [(some "S", some "Pressure")] ∧
    duplicateSensorDevice.sensors.get? 1 =
      some (.generic ⟨0, 1, some "S", some "Pressure", none⟩) ∧
    (duplicateSensorDevice.sensors.get? 0).map SensorSlot.isSubscribable =
      some true :=
  ⟨rfl, rfl, rfl⟩

/-- C5 (amended): after v3 Device construction the sensors list holds a
SubscribableSensor (with the no-op callback) in exactly those slots whose
descriptor-type pair appears among the SensorSubscribeCmd entries and that
are the first slot bearing that pair, and a plain GenericSensor in every
other slot. -/
theorem c5_promotion_amended (name : String) (ix : Int)
    (caps : List (String × List DeviceMessageAttributesV3))
    (gap : Option Int) (disp : Option String) :
    (mkDeviceV3 name ix caps gap disp).sensors =
      sensorsSpec ix (capGet caps "SensorReadCmd")
        (capGet caps "SensorSubscribeCmd") :=
  mkDeviceV3_sensors_eq name ix caps gap disp

/-- C6: an incoming message with nonzero id k fulfills and removes the
pending entry keyed k when one exists (after which a second response with
the same id is only logged), and is logged and dropped with the state
untouched when no entry exists. -/
theorem c6_one_shot_routing (st : ClientState) (m : Incoming)
    (h0 : ¬ m.id = 0) :
    (∀ f, alistFind st.tasks m.id = some f →
      handleIncoming st m =
        .ok ({ st with tasks := alistErase st.tasks m.id }, [.fulfilled f m]) ∧
      alistFind (alistErase st.tasks m.id) m.id = none ∧
      handleIncoming { st with tasks := alistErase st.tasks m.id } m =
        .ok ({ st with tasks := alistErase st.tasks m.id },
          [.errorLogged "unexpected id"])) ∧
    (alistFind st.tasks m.id = none →
      handleIncoming st m = .ok (st, [.errorLogged "unexpected id"])) := by
  constructor
  · intro f hf
    refine ⟨?_, alistFind_alistErase_self st.tasks m.id, ?_⟩
    · rw [handleIncoming.eq_def, if_neg h0, hf]
    · have h2 : alistFind
          ({ st with tasks := alistErase st.tasks m.id } : ClientState).tasks
          m.id = none :=
        alistFind_alistErase_self st.tasks m.id
      rw [handleIncoming.eq_def, if_neg h0, h2]
  · intro hn
    rw [handleIncoming.eq_def, if_neg h0, hn]

/-- Witness for C6: a response with id 5 consumes the pending entry (5, 77);
repeating it is only logged. -/
theorem c6_one_shot_routing_witness :
    handleIncoming ⟨[((5 : Int), 77)], [], none⟩ (.okV0 5) =
      .ok (⟨[], [], none⟩, [.fulfilled 77 (.okV0 5)]) ∧
    handleIncoming ⟨[], [], none⟩ (.okV0 5) =
      .ok (⟨[], [], none⟩, [.errorLogged "unexpected id"]) := by
  have h := (c6_one_shot_routing ⟨[((5 : Int), 77)], [], none⟩ (.okV0 5)
    (by decide)).1 77 rfl
  exact ⟨h.1, h.2.2⟩

/-- C7: the id allocator returns 1 on the first call, previous+1 while the
previous value is below 4294967295, and 1 when the previous value is
4294967295; every returned id lies in the range 1 to 4294967295, so 0 is
never returned. -/
theorem c7_id_allocator (g : AutoIncrementId) (h : g.Reachable) :
    (g.pointer = none → g.call.1 = 1) ∧
    (∀ p : Nat, g.pointer = some p → p < 4294967295 → g.call.1 = p + 1) ∧
    (g.pointer = some 4294967295 → g.call.1 = 1) ∧
    1 ≤ g.call.1 ∧ g.call.1 ≤ 4294967295 := by
  obtain ⟨hlb, hub, hp⟩ := AutoIncrementId.inv_of_reachable h
  refine ⟨?_, ?_, ?_, ?_, ?_⟩
  · intro hn
    simp [AutoIncrementId.call, hn, hlb]
  · intro p hsome hlt
    have hne : ¬ p = g.upper_bound := by rw [hub]; omega
    simp [AutoIncrementId.call, hsome, hne]
  · intro hbig
    simp [AutoIncrementId.call, hbig, hub, hlb]
  · rcases hp with hn | ⟨p, hsome, hp1, hp2⟩
    · simp [AutoIncrementId.call, hn, hlb]
    · by_cases hne : p = g.upper_bound
      · simp [AutoIncrementId.call, hsome, hne, hlb]
      · simp [AutoIncrementId.call, hsome, hne]
  · rcases hp with hn | ⟨p, hsome, hp1, hp2⟩
    · simp [AutoIncrementId.call, hn, hlb]
    · by_cases hne : p = g.upper_bound
      · simp [AutoIncrementId.call, hsome, hne, hlb]
      · simp [AutoIncrementId.call, hsome, hne]
        rw [hub] at hne
        omega

/-- Witness for C7: the generator returns 1 first and 2 second. -/
theorem c7_id_allocator_witness :
    message_id_generator.call.1 = 1 ∧
    message_id_generator.call.2.call.1 = 2 := by
  refine ⟨(c7_id_allocator message_id_generator .init).1 rfl, ?_⟩
  have h := (c7_id_allocator message_id_generator.call.2
    (.step .init)).2.1 1 rfl (by decide)
  simpa using h

/-- C8: PascalCase-snake_case conversion round-trips on every registered
wire field name and every internal field name, and the acronyms RSSI and
FW12 keep their upper-case form. -/
theorem c8_case_roundtrip :
    (wireFieldNames.all (fun f => pascal_case (snake_case f) == f)) = true ∧
    (snakeFieldNames.all (fun f => snake_case (pascal_case f) == f)) = true ∧
    snake_case "RSSILevel" = "rssi_level" ∧
    pascal_case "rssi_level" = "RSSILevel" ∧
    snake_case "FleshlightLaunchFW12Cmd" = "fleshlight_launch_fw12_cmd" ∧
    pascal_case "fleshlight_launch_fw12_cmd" = "FleshlightLaunchFW12Cmd" :=
  ⟨by decide, by decide, by decide, by decide, by decide, by decide⟩

/-- C9: start_scanning with a scan pending returns the pending future and
sends nothing; with no scan pending it stores and returns a fresh future and
sends exactly one StartScanning. -/
theorem c9_scan_idempotence (st : ClientState) (fresh : Nat) :
    (∀ f, st.scanning = some f → startScanning st fresh = (st, f, [])) ∧
    (st.scanning = none →
      startScanning st fresh =
        ({ st with scanning := some fresh }, fresh, [.startScanning])) := by
  constructor
  · intro f hf
    rw [startScanning, hf]
  · intro hn
    rw [startScanning, hn]

/-- Witness for C9: with future 7 pending the call returns 7 and sends
nothing; with none pending it installs 9 and sends StartScanning. -/
theorem c9_scan_idempotence_witness :
    startScanning ⟨[], [], some 7⟩ 9 = (⟨[], [], some 7⟩, 7, []) ∧
    startScanning ⟨[], [], none⟩ 9 = (⟨[], [], some 9⟩, 9, [.startScanning]) := by
  refine ⟨(c9_scan_idempotence ⟨[], [], some 7⟩ 9).1 7 rfl, ?_⟩
  have h := (c9_scan_idempotence ⟨[], [], none⟩ 9).2 rfl
  simpa using h

/-- C10: a SubscribableSensor's callback slot holds the no-op right after
device construction and again after an unsubscribe acknowledged Ok; a
SensorReading dispatched to a subscribable slot invokes the stored callback
(the no-op produces no user invocation, silently discarding the data, with
no mismatch log), while a reading for a plain sensor slot is logged as a
mismatch. -/
theorem c10_noop_callback (st : ClientState) (dix six : Int) (stype : String)
    (data : List Int) (d : DeviceState)
    (hd : alistFind st.devices dix = some d) :
    (∀ (name : String) (ix : Int)
      (caps : List (String × List DeviceMessageAttributesV3))
      (gap : Option Int) (disp : Option String) (s : SubscribableSensorState),
      SensorSlot.subscribable s ∈ (mkDeviceV3 name ix caps gap disp).sensors →
      s.callback = .noCallback) ∧
    (∀ (s : SubscribableSensorState) (k : Int),
      (s.unsubscribeHandle (.okV0 k)).1.callback = .noCallback) ∧
    (∀ s, pyGet d.sensors six = some (.subscribable s) →
      handleIncoming st (.sensorReadingV3 0 dix six stype data) =
        .ok (st, [.callbackInvoked s.callback data]) ∧
      Callback.run .noCallback data = []) ∧
    (∀ g, pyGet d.sensors six = some (.generic g) →
      handleIncoming st (.sensorReadingV3 0 dix six stype data) =
        .ok (st, [.errorLogged "sensor not subscribable"])) := by
  refine ⟨?_, fun s k => rfl, ?_, ?_⟩
  · intro name ix caps gap disp s hmem
    rw [mkDeviceV3_sensors_eq] at hmem
    exact specSlotsAux_callback ix (capGet caps "SensorReadCmd") 0 []
      ((capGet caps "SensorSubscribeCmd").map attrPair) s hmem
  · intro s hs
    refine ⟨?_, rfl⟩
    rw [handleIncoming.eq_def]
    simp only [Incoming.id, if_true]
    simp only [hd, hs]
  · intro g hg
    rw [handleIncoming.eq_def]
    simp only [Incoming.id, if_true]
    simp only [hd, hg]

/-- Witness for C10: a server-initiated pressure reading for the
subscribable slot of pressureSensorDevice invokes the no-op callback, which
discards the data. -/
theorem c10_noop_callback_witness :
    handleIncoming ⟨[], [((0 : Int), pressureSensorDevice)], none⟩
        (.sensorReadingV3 0 0 0 "Pressure" [591]) =
      .ok (⟨[], [((0 : Int), pressureSensorDevice)], none⟩,
        [.callbackInvoked .noCallback [591]]) ∧
    Callback.run .noCallback [591] = [] := by
  have h := (c10_noop_callback ⟨[], [((0 : Int), pressureSensorDevice)], none⟩
    0 0 "Pressure" [591] pressureSensorDevice rfl).2.2.1
    ⟨⟨0, 0, some "S", some "Pressure", none⟩, .noCallback⟩ (by rfl)
  exact h

end Buttplug
